import Mathlib

/-!
# A verification development for the `autocensus` package

This file gives a shallow embedding in Lean of the pure computational core of
the `autocensus` Python package (query parameter validation, variable chunking
and table-name parsing, Census geography handling, geometry normalization, and
the derived-column computations of the dataframe pipeline), together with
theorems settling the behavioural properties stated in the package's
specification.

Conventions of the embedding:
* Python exceptions become `Except PyError` results; the distinct exception
  classes of `autocensus.errors` (plus the built-in `ValueError`) become
  constructors of `PyError`.
* Python floats carrying data values are modelled as `Option ℚ` (`none` is
  pandas `NaN`); `float` division by zero (which produces `inf` in pandas) is
  outside the model, and theorems touching division carry the corresponding
  non-zero hypotheses.
* Iterators/generators become lists in yield order.
-/

namespace Autocensus

/-- The error classes of `autocensus.errors`, plus Python's built-in
`ValueError` and `KeyError`-free failure modes that the code can raise. -/
inductive PyError
  | valueError
  | invalidYear
  | invalidGeography
  | invalidVariable
  | missingCredentials
deriving DecidableEq, Repr

/-! ## `utilities.chunk_variables`

Embeds `utilities.chunk_variables` (and the identical
`Query.chunk_variables` classmethod of the legacy `__init__.py`): repeatedly
take `max_size` items from the iterator (`islice`), yielding each non-empty
chunk, stopping on the first empty one.  With `max_size = 0`, `islice`
immediately produces an empty chunk, so the generator stops at once. -/
def chunk_variables (vs : List String) (max_size : Nat) : List (List String) :=
  if vs = [] then []
  else if max_size = 0 then []
  else vs.take max_size :: chunk_variables (vs.drop max_size) max_size
termination_by vs.length
decreasing_by
  simp only [List.length_drop]
  rename_i h1 h2
  have hl : 0 < vs.length := List.length_pos.mpr h1
  omega

theorem chunk_variables_nil (m : Nat) : chunk_variables [] m = [] := by
  rw [chunk_variables]
  simp

theorem chunk_variables_cons (l : List String) (m : Nat) (h1 : l ≠ []) (h2 : m ≠ 0) :
    chunk_variables l m = l.take m :: chunk_variables (l.drop m) m := by
  rw [chunk_variables]
  simp [h1, h2]

theorem chunk_variables_join (l : List String) (m : Nat) (h : 1 ≤ m) :
    (chunk_variables l m).flatten = l := by
  induction l, m using chunk_variables.induct with
  | case1 m => simp [chunk_variables_nil]
  | case2 l m => omega
  | case3 l m h1 h2 ih =>
    rw [chunk_variables_cons l m h1 h2]
    simp [ih h, List.take_append_drop]

theorem chunk_variables_length (l : List String) (m : Nat) (h : 1 ≤ m) :
    (chunk_variables l m).length = (l.length + m - 1) / m := by
  induction l, m using chunk_variables.induct with
  | case1 m =>
    rw [chunk_variables_nil]
    simp only [List.length_nil]
    rw [Nat.div_eq_of_lt (by omega)]
  | case2 l m => omega
  | case3 l m h1 h2 ih =>
    rw [chunk_variables_cons l m h1 h2]
    have hl : 0 < l.length := List.length_pos.mpr h1
    simp only [List.length_cons, ih h, List.length_drop]
    rcases Nat.lt_or_ge l.length m with hlt | hge
    · have hz : (l.length - m + m - 1) / m = 0 := Nat.div_eq_of_lt (by omega)
      have ho : (l.length + m - 1) / m = 1 := Nat.div_eq_of_lt_le (by omega) (by omega)
      omega
    · have harr : l.length + m - 1 = (l.length - m + m - 1) + m := by omega
      rw [harr, Nat.add_div_right _ (by omega)]

theorem chunk_variables_sizes (l : List String) (m : Nat) (h : 1 ≤ m) :
    ∀ c ∈ (chunk_variables l m).dropLast, c.length = m := by
  induction l, m using chunk_variables.induct with
  | case1 m => simp [chunk_variables_nil]
  | case2 l m => omega
  | case3 l m h1 h2 ih =>
    rw [chunk_variables_cons l m h1 h2]
    rcases eq_or_ne (chunk_variables (l.drop m) m) [] with hrest | hrest
    · rw [hrest]
      simp
    · rw [List.dropLast_cons_of_ne_nil hrest]
      intro c hc
      rcases List.mem_cons.mp hc with hc | hc
      · subst hc
        have hml : m ≤ l.length := by
          by_contra hcon
          apply hrest
          have : l.drop m = [] := List.drop_eq_nil_of_le (by omega)
          rw [this, chunk_variables_nil]
        simp [List.length_take, Nat.min_eq_left hml]
      · exact ih h c hc

/-- **C1.** For every sequence of variable strings of length `N` and every
chunk size `m ≥ 1`, `chunk_variables` yields exactly `⌈N/m⌉ = (N + m - 1) / m`
chunks, every chunk except possibly the last has size exactly `m`, and
concatenating the chunks in yielded order reproduces the original input. -/
theorem chunk_variables_spec (l : List String) (m : Nat) (h : 1 ≤ m) :
    (chunk_variables l m).length = (l.length + m - 1) / m ∧
    (∀ c ∈ (chunk_variables l m).dropLast, c.length = m) ∧
    (chunk_variables l m).flatten = l :=
  ⟨chunk_variables_length l m h, chunk_variables_sizes l m h, chunk_variables_join l m h⟩

/-- Witness for `chunk_variables_spec`: five variables in chunks of two give
three chunks (`⌈5/2⌉`), the first two of size two, rejoining to the input. -/
theorem chunk_variables_spec_witness :
    1 ≤ 2 ∧
    ((chunk_variables ["a", "b", "c", "d", "e"] 2).length = (5 + 2 - 1) / 2 ∧
     (∀ c ∈ (chunk_variables ["a", "b", "c", "d", "e"] 2).dropLast, c.length = 2) ∧
     (chunk_variables ["a", "b", "c", "d", "e"] 2).flatten = ["a", "b", "c", "d", "e"]) :=
  ⟨by decide, chunk_variables_spec ["a", "b", "c", "d", "e"] 2 (by decide)⟩

/-! ## `utilities.parse_table_name_from_variable`

The Python function computes
`end_of_table_code = [character.isdigit() for character in variable].index(True)`
— `list.index` raises a plain `ValueError` when no character is a digit — then
looks the prefix `variable[:end_of_table_code]` up in a fixed dict, turning a
`KeyError` into `InvalidVariableError`. -/

/-- The fixed prefix-to-table dict of `parse_table_name_from_variable`. -/
def table_mappings : List (String × String) :=
  [("B", "detail"), ("C", "detail"), ("CP", "cprofile"), ("DP", "profile"), ("S", "subject")]

def parse_table_name_from_variable (var : String) : Except PyError String :=
  match var.toList.findIdx? Char.isDigit with
  | none => .error .valueError
  | some end_of_table_code =>
    let table_code : String := (var.toList.take end_of_table_code).asString
    match table_mappings.lookup table_code with
    | some table_name => .ok table_name
    | none => .error .invalidVariable

/-- **C4.** `parse_table_name_from_variable` maps a variable code by the
letters before its first digit: the spec's four examples map to `detail`,
`profile`, `subject` and `cprofile` respectively, and any variable containing
a digit whose leading-letter prefix is not a key of the mapping (such as the
prefix `"A"`) yields `InvalidVariableError`. -/
theorem parse_table_name_spec :
    parse_table_name_from_variable "B01003_001E" = .ok "detail" ∧
    parse_table_name_from_variable "DP05_0015E" = .ok "profile" ∧
    parse_table_name_from_variable "S2503_C02_001E" = .ok "subject" ∧
    parse_table_name_from_variable "CP02_2014_001E" = .ok "cprofile" ∧
    parse_table_name_from_variable "A1001_001E" = .error .invalidVariable ∧
    (∀ v : String, ∀ i : Nat, v.toList.findIdx? Char.isDigit = some i →
      table_mappings.lookup (v.toList.take i).asString = none →
      parse_table_name_from_variable v = .error .invalidVariable) := by
  refine ⟨by rfl, by rfl, by rfl, by rfl, by rfl, ?_⟩
  intro v i hidx hlook
  unfold parse_table_name_from_variable
  rw [hidx]
  simp only [hlook]

/-- Witness for `parse_table_name_spec`: the unrecognized prefix `"Z"` of
`"Z9"` (first digit at index 1) is rejected with `InvalidVariableError`. -/
theorem parse_table_name_spec_witness :
    "Z9".toList.findIdx? Char.isDigit = some 1 ∧
    table_mappings.lookup ("Z9".toList.take 1).asString = none ∧
    parse_table_name_from_variable "Z9" = .error .invalidVariable :=
  ⟨by decide, by decide,
    parse_table_name_spec.2.2.2.2.2 "Z9" 1 (by decide) (by decide)⟩

theorem parse_table_name_no_digit (v : String)
    (h : ∀ c ∈ v.toList, ¬ c.isDigit) :
    parse_table_name_from_variable v = .error .valueError := by
  unfold parse_table_name_from_variable
  have : v.toList.findIdx? Char.isDigit = none := by
    rw [List.findIdx?_eq_none_iff]
    intro c hc
    simpa using h c hc
  rw [this]

/-- **C10.** A variable string containing no digit at all (such as `"NAME"` or
the empty string) makes `parse_table_name_from_variable` fail with the plain
`ValueError` coming from the unguarded `list.index(True)` call, not with
`InvalidVariableError`; conversely the `InvalidVariableError` branch is
reachable only for inputs containing at least one digit. -/
theorem parse_table_name_no_digit_spec :
    parse_table_name_from_variable "NAME" = .error .valueError ∧
    parse_table_name_from_variable "" = .error .valueError ∧
    (∀ v : String, (∀ c ∈ v.toList, ¬ c.isDigit) →
      parse_table_name_from_variable v = .error .valueError ∧
      parse_table_name_from_variable v ≠ .error .invalidVariable) ∧
    (∀ v : String, parse_table_name_from_variable v = .error .invalidVariable →
      ∃ c ∈ v.toList, c.isDigit) := by
  refine ⟨by rfl, by rfl, ?_, ?_⟩
  · intro v h
    have hv := parse_table_name_no_digit v h
    exact ⟨hv, by rw [hv]; intro hcon; exact PyError.noConfusion (Except.error.inj hcon)⟩
  · intro v h
    by_contra hcon
    push_neg at hcon
    have hv := parse_table_name_no_digit v (by simpa using hcon)
    rw [hv] at h
    exact PyError.noConfusion (Except.error.inj h)

/-- Witness for `parse_table_name_no_digit_spec`: `"GEO_ID"` has no digit and
fails with `ValueError`; `"Z9"` fails with `InvalidVariableError` and indeed
contains the digit `'9'`. -/
theorem parse_table_name_no_digit_spec_witness :
    (parse_table_name_from_variable "GEO_ID" = .error .valueError ∧
     parse_table_name_from_variable "GEO_ID" ≠ .error .invalidVariable) ∧
    (∃ c ∈ "Z9".toList, c.isDigit) :=
  ⟨parse_table_name_no_digit_spec.2.2.1 "GEO_ID" (by decide),
   parse_table_name_no_digit_spec.2.2.2 "Z9" (by rfl)⟩

/-! ## `geography.calculate_congress_number` -/

/-- Embeds `geography.calculate_congress_number`:
`congress = math.ceil((year - 1789) / 2) + 1`. -/
def calculate_congress_number (year : ℤ) : ℤ :=
  ⌈((year : ℚ) - 1789) / 2⌉ + 1

theorem calculate_congress_number_even (y : ℤ) :
    calculate_congress_number (2 * y) = y - 893 := by
  unfold calculate_congress_number
  have harr : ((((2 * y : ℤ) : ℚ)) - 1789) / 2 = ((-1789 : ℚ) / 2) + (y : ℚ) := by
    push_cast
    ring
  rw [harr, Int.ceil_add_int]
  have hc : ⌈((-1789 : ℚ) / 2)⌉ = -894 := by
    rw [Int.ceil_eq_iff]
    constructor <;> norm_num
  rw [hc]
  ring

theorem calculate_congress_number_odd (y : ℤ) :
    calculate_congress_number (2 * y + 1) = y - 893 := by
  unfold calculate_congress_number
  have harr : ((((2 * y + 1 : ℤ) : ℚ)) - 1789) / 2 = ((y - 894 : ℤ) : ℚ) := by
    push_cast
    ring
  rw [harr, Int.ceil_intCast]
  ring

/-- **C5 counterexample.** The claim maps both 2013 and 2014 to Congress 113,
but `ceil((2014 - 1789) / 2) + 1 = ceil(112.5) + 1 = 114`: the code (and the
repository's own unit test, which lists `(2014, 114)`) gives 114 for 2014. -/
theorem calculate_congress_number_2014 :
    calculate_congress_number 2014 ≠ 113 := by
  have h : calculate_congress_number 2014 = 114 := by
    have := calculate_congress_number_even 1007
    norm_num at this
    omega
  omega

/-- **C5 (amended).** `calculate_congress_number` computes
`ceil((year - 1789) / 2) + 1`; it maps 2013 to 113 but 2014 to 114, and both
2018 and 2019 to 116.  The Congress number changes exactly at even years: each
even year `2y` starts a new number, the following odd year keeps it, and the
next even year increments it. -/
theorem calculate_congress_number_spec :
    calculate_congress_number 2013 = 113 ∧
    calculate_congress_number 2014 = 114 ∧
    calculate_congress_number 2018 = 116 ∧
    calculate_congress_number 2019 = 116 ∧
    (∀ y : ℤ, calculate_congress_number (2 * y) = calculate_congress_number (2 * y + 1) ∧
      calculate_congress_number (2 * y + 2) = calculate_congress_number (2 * y) + 1) := by
  have h2013 := calculate_congress_number_odd 1006
  have h2014 := calculate_congress_number_even 1007
  have h2018 := calculate_congress_number_even 1009
  have h2019 := calculate_congress_number_odd 1009
  norm_num at h2013 h2014 h2018 h2019
  refine ⟨by omega, by omega, by omega, by omega, ?_⟩
  intro y
  have he := calculate_congress_number_even y
  have ho := calculate_congress_number_odd y
  have he' : calculate_congress_number (2 * y + 2) = (y + 1) - 893 := by
    have := calculate_congress_number_even (y + 1)
    have harr : 2 * (y + 1) = 2 * y + 2 := by ring
    rwa [harr] at this
  omega

/-! ## `geography.Geo`

`Geo.__init__` special-cases `value == 'us'` with no code, otherwise splits a
single `"type:code"` argument on `":"` (tuple unpacking raises `ValueError`
unless the split has exactly two parts), or takes an explicit `(type, code)`
pair; afterwards, a `"state"` code is resolved through the external
`us.states.lookup` and replaced by the state's FIPS code when found. -/

/-- One record of the external `us` package's state table. -/
structure USState where
  abbr : String
  fips : String
deriving DecidableEq, Repr

/-- The state table of the external `us` package (50 states, DC and the
territories), as (postal abbreviation, FIPS code) pairs. -/
def us_states : List USState :=
  [⟨"AL", "01"⟩, ⟨"AK", "02"⟩, ⟨"AZ", "04"⟩, ⟨"AR", "05"⟩, ⟨"CA", "06"⟩,
   ⟨"CO", "08"⟩, ⟨"CT", "09"⟩, ⟨"DE", "10"⟩, ⟨"DC", "11"⟩, ⟨"FL", "12"⟩,
   ⟨"GA", "13"⟩, ⟨"HI", "15"⟩, ⟨"ID", "16"⟩, ⟨"IL", "17"⟩, ⟨"IN", "18"⟩,
   ⟨"IA", "19"⟩, ⟨"KS", "20"⟩, ⟨"KY", "21"⟩, ⟨"LA", "22"⟩, ⟨"ME", "23"⟩,
   ⟨"MD", "24"⟩, ⟨"MA", "25"⟩, ⟨"MI", "26"⟩, ⟨"MN", "27"⟩, ⟨"MS", "28"⟩,
   ⟨"MO", "29"⟩, ⟨"MT", "30"⟩, ⟨"NE", "31"⟩, ⟨"NV", "32"⟩, ⟨"NH", "33"⟩,
   ⟨"NJ", "34"⟩, ⟨"NM", "35"⟩, ⟨"NY", "36"⟩, ⟨"NC", "37"⟩, ⟨"ND", "38"⟩,
   ⟨"OH", "39"⟩, ⟨"OK", "40"⟩, ⟨"OR", "41"⟩, ⟨"PA", "42"⟩, ⟨"RI", "44"⟩,
   ⟨"SC", "45"⟩, ⟨"SD", "46"⟩, ⟨"TN", "47"⟩, ⟨"TX", "48"⟩, ⟨"UT", "49"⟩,
   ⟨"VT", "50"⟩, ⟨"VA", "51"⟩, ⟨"WA", "53"⟩, ⟨"WV", "54"⟩, ⟨"WI", "55"⟩,
   ⟨"WY", "56"⟩, ⟨"AS", "60"⟩, ⟨"GU", "66"⟩, ⟨"MP", "69"⟩, ⟨"PR", "72"⟩,
   ⟨"VI", "78"⟩]

/-- Python `str.upper()` restricted to its ASCII behaviour. -/
def str_to_upper (s : String) : String :=
  (s.toList.map Char.toUpper).asString

/-- Models the external `us.states.lookup`: a value matching a state's FIPS
code, or (case-insensitively) its postal abbreviation, resolves to that state;
anything else resolves to nothing. -/
def us_states_lookup (val : String) : Option USState :=
  match us_states.find? (fun s => s.fips = val) with
  | some s => some s
  | none => us_states.find? (fun s => s.abbr = str_to_upper val)

structure Geo where
  type : String
  code : String
deriving DecidableEq, Repr

/-- Serialization `Geo.__str__`: `f'{self.type}:{self.code}'`. -/
def Geo.str (g : Geo) : String :=
  g.type ++ ":" ++ g.code

/-- The state-abbreviation normalization at the end of `Geo.__init__`. -/
def Geo.resolve_state (g : Geo) : Geo :=
  if g.type = "state" then
    match us_states_lookup g.code with
    | some s => ⟨g.type, s.fips⟩
    | none => g
  else g

/-- Python `str.split(sep)` for a one-character separator, on `List Char`. -/
def split_on_char (sep : Char) : List Char → List (List Char)
  | [] => [[]]
  | c :: rest =>
    if c = sep then [] :: split_on_char sep rest
    else
      match split_on_char sep rest with
      | [] => [[c]]
      | g :: gs => (c :: g) :: gs

/-- `Geo.__init__`, with the optional second argument as `Option String`. -/
def Geo.make (value : String) (code : Option String) : Except PyError Geo :=
  if value = "us" ∧ code = none then
    .ok ⟨"us", "*"⟩
  else
    match code with
    | none =>
      match split_on_char ':' value.toList with
      | [t, c] => .ok (Geo.resolve_state ⟨t.asString, c.asString⟩)
      | _ => .error .valueError
    | some c => .ok (Geo.resolve_state ⟨value, c⟩)

theorem split_on_char_ne_nil (sep : Char) (l : List Char) :
    split_on_char sep l ≠ [] := by
  cases l with
  | nil => simp [split_on_char]
  | cons c rest =>
    unfold split_on_char
    split
    · simp
    · split <;> simp

theorem split_on_char_no_sep (sep : Char) (l : List Char)
    (h : ∀ c ∈ l, c ≠ sep) : split_on_char sep l = [l] := by
  induction l with
  | nil => rfl
  | cons c rest ih =>
    unfold split_on_char
    rw [if_neg (h c (by simp))]
    rw [ih (fun x hx => h x (by simp [hx]))]

/-- **C7.** `Geo("state", "08")` equals `Geo("state:08")` and both serialize
to `"state:08"`; `Geo("us")` serializes to `"us:*"`; the postal abbreviation
`Geo("state:WA")` serializes to `"state:53"` (resolved to FIPS at
construction); a state code that `us.states.lookup` cannot resolve is passed
through unchanged rather than raising; and a value without `":"` that is not
`"us"` raises `ValueError`. -/
theorem geo_spec :
    Geo.make "state:08" none = .ok ⟨"state", "08"⟩ ∧
    Geo.make "state" (some "08") = .ok ⟨"state", "08"⟩ ∧
    Geo.str ⟨"state", "08"⟩ = "state:08" ∧
    Geo.make "us" none = .ok ⟨"us", "*"⟩ ∧
    Geo.str ⟨"us", "*"⟩ = "us:*" ∧
    Geo.make "state:WA" none = .ok ⟨"state", "53"⟩ ∧
    Geo.str ⟨"state", "53"⟩ = "state:53" ∧
    (∀ c : String, us_states_lookup c = none →
      Geo.make "state" (some c) = .ok ⟨"state", c⟩) ∧
    (∀ v : String, v ≠ "us" → (∀ c ∈ v.toList, c ≠ ':') →
      Geo.make v none = .error .valueError) := by
  refine ⟨by rfl, by rfl, by rfl, by rfl, by rfl, by rfl, by rfl, ?_, ?_⟩
  · intro c hc
    unfold Geo.make
    rw [if_neg (by simp)]
    unfold Geo.resolve_state
    simp [hc]
  · intro v hv hc
    unfold Geo.make
    rw [if_neg (by simp [hv])]
    rw [split_on_char_no_sep ':' v.toList hc]

/-- Witness for `geo_spec`: the unresolvable code `"ZZ"` is passed through as
`Geo("state", "ZZ")`, and the colon-free value `"nation"` raises. -/
theorem geo_spec_witness :
    us_states_lookup "ZZ" = none ∧
    Geo.make "state" (some "ZZ") = .ok ⟨"state", "ZZ"⟩ ∧
    Geo.make "nation" none = .error .valueError :=
  ⟨by decide, geo_spec.2.2.2.2.2.2.2.1 "ZZ" (by decide),
   geo_spec.2.2.2.2.2.2.2.2 "nation" (by decide) (by decide)⟩

/-! ## `utilities.check_geo_combinations`

The first guard of the Python function is
`if 'tract' in for_geo_types and not ({'state', 'county'} & in_geo_types)`:
it fires only when the *intersection* of `in_geo`'s types with
`{'state', 'county'}` is empty, i.e. when `in_geo` has neither a state nor a
county — not when one of the two is missing. -/
def check_geo_combinations (for_geo in_geo : List Geo) : Except PyError Bool :=
  let for_geo_types := for_geo.map Geo.type
  let in_geo_types := in_geo.map Geo.type
  if for_geo_types.contains "tract"
      && !(in_geo_types.contains "state" || in_geo_types.contains "county") then
    .error .invalidGeography
  else if for_geo_types.contains "tract" && in_geo_types.contains "place" then
    .error .invalidGeography
  else if for_geo_types.contains "place" && !(in_geo_types.contains "state") then
    .error .invalidGeography
  else if for_geo_types.contains "county" && !(in_geo_types.contains "state") then
    .error .invalidGeography
  else
    .ok true

/-- **C3 (code bug).** The claim (like the function's own error message
"Queries by tract must include state and county" and the repository's unit
test, which expects `check_geo_hierarchy([Geo('tract:*')], [Geo('state:48')])`
to raise `InvalidGeographyError`) requires *both* a state and a county in
`in_geo` for a tract query.  The code instead tests
`not ({'state', 'county'} & in_geo_types)`, which only fires when *neither*
is present: a tract query with only a state — or only a county — passes
validation.  A tract query with both (and no place) passes as the claim
says. -/
theorem check_geo_combinations_tract_only_state :
    check_geo_combinations [⟨"tract", "*"⟩] [⟨"state", "48"⟩] = .ok true ∧
    check_geo_combinations [⟨"tract", "*"⟩] [⟨"county", "041"⟩] = .ok true ∧
    check_geo_combinations [⟨"tract", "*"⟩] [⟨"state", "48"⟩, ⟨"county", "041"⟩] = .ok true ∧
    check_geo_combinations [⟨"tract", "*"⟩] [] = .error .invalidGeography :=
  ⟨by rfl, by rfl, by rfl, by rfl⟩

/-! ## `geography.coerce_polygon_to_multipolygon` and `geography.flatten_geometry` -/

/-- A coordinate tuple: 2 entries for a 2D point, 3 for a 3D one.  Shapely
coordinates are floats; the model uses rationals. -/
abbrev Point := List ℚ

/-- A shapely `Polygon`: an exterior ring plus interior rings (holes). -/
structure Polygon where
  exterior : List Point
  interiors : List (List Point)
deriving DecidableEq, Repr

/-- A shapely `MultiPolygon`: its member polygons. -/
abbrev MultiPolygon := List Polygon

/-- The `Union[MultiPolygon, Polygon]` argument of the coercion. -/
inductive PolyShape
  | poly : Polygon → PolyShape
  | multi : MultiPolygon → PolyShape
deriving DecidableEq, Repr

/-- `isinstance(shape, MultiPolygon)` dispatch of
`coerce_polygon_to_multipolygon`. -/
def coerce_polygon_to_multipolygon : PolyShape → MultiPolygon
  | .poly p => [p]
  | .multi m => m

/-- Shapely's `has_z` on our model: some coordinate carries a third
ordinate.  (Shapely geometries are uniformly 2D or 3D, on which this agrees
with shapely.) -/
def MultiPolygon.has_z (mp : MultiPolygon) : Bool :=
  mp.any (fun p => (p.exterior ++ p.interiors.flatten).any (fun pt => pt.length ≥ 3))

/-- Embeds `geography.flatten_geometry`: a multipolygon without z is returned
unchanged; otherwise each polygon is rebuilt as
`Polygon([(x, y) for (x, y, *_) in polygon.exterior.coords])` — from the
*exterior* ring only, so interior rings are not carried over. -/
def flatten_geometry (mp : MultiPolygon) : MultiPolygon :=
  if MultiPolygon.has_z mp then
    mp.map (fun p => ⟨p.exterior.map (fun pt => pt.take 2), []⟩)
  else mp

/-- The flattening described by the claim, for comparison: drop the Z
ordinate from *every* ring, interior rings preserved.  Modelled from the
spec's words, not from the code. -/
def flatten_geometry_per_claim (mp : MultiPolygon) : MultiPolygon :=
  if MultiPolygon.has_z mp then
    mp.map (fun p =>
      ⟨p.exterior.map (fun pt => pt.take 2),
       p.interiors.map (fun r => r.map (fun pt => pt.take 2))⟩)
  else mp

/-- A 3D multipolygon holding one square with one square hole. -/
def sample_3d_with_hole : MultiPolygon :=
  [⟨[[0, 0, 1], [4, 0, 1], [4, 4, 1], [0, 4, 1], [0, 0, 1]],
    [[[1, 1, 1], [2, 1, 1], [2, 2, 1], [1, 2, 1], [1, 1, 1]]]⟩]

/-- **C8 counterexample.** On a 3D polygon with an interior ring,
`flatten_geometry` does not return "the input's rings with the Z ordinate
dropped from every ring (interior rings preserved)": it rebuilds each polygon
from its exterior ring alone, so the hole disappears. -/
theorem flatten_geometry_drops_interiors :
    flatten_geometry sample_3d_with_hole ≠
      flatten_geometry_per_claim sample_3d_with_hole ∧
    (flatten_geometry sample_3d_with_hole).map Polygon.interiors = [[]] ∧
    sample_3d_with_hole.map (fun p => p.interiors.length) = [1] := by
  refine ⟨?_, by rfl, by rfl⟩
  intro hcon
  have := congrArg (fun l => l.map Polygon.interiors) hcon
  revert this
  decide

/-- **C8 (amended).** Coercion: `coerce_polygon_to_multipolygon` returns an
already-multi polygon unchanged and wraps a single polygon in a one-element
multipolygon.  Flattening: a 2D multipolygon (every coordinate of every ring
of length 2, hence no z) is returned unchanged; a multipolygon with z is
replaced by one whose polygons' *exterior* rings are the input's exterior
rings with the third ordinate dropped and whose interior rings are discarded;
and `flatten_geometry` is idempotent on every input. -/
theorem geometry_normalization_spec :
    (∀ m : MultiPolygon, coerce_polygon_to_multipolygon (.multi m) = m) ∧
    (∀ p : Polygon, coerce_polygon_to_multipolygon (.poly p) = [p]) ∧
    (∀ mp : MultiPolygon,
      (∀ p ∈ mp, (∀ pt ∈ p.exterior, pt.length = 2) ∧
        ∀ r ∈ p.interiors, ∀ pt ∈ r, pt.length = 2) →
      flatten_geometry mp = mp) ∧
    (∀ mp : MultiPolygon, MultiPolygon.has_z mp = true →
      (flatten_geometry mp).map Polygon.exterior =
        mp.map (fun p => p.exterior.map (fun pt => pt.take 2)) ∧
      ∀ q ∈ flatten_geometry mp, q.interiors = []) ∧
    (∀ mp : MultiPolygon, flatten_geometry (flatten_geometry mp) = flatten_geometry mp) := by
  have h2d : ∀ mp : MultiPolygon,
      (∀ p ∈ mp, (∀ pt ∈ p.exterior, pt.length = 2) ∧
        ∀ r ∈ p.interiors, ∀ pt ∈ r, pt.length = 2) →
      MultiPolygon.has_z mp = false := by
    intro mp h
    simp only [MultiPolygon.has_z, List.any_eq_false]
    intro p hp
    simp only [List.any_eq_true, not_exists, not_and]
    intro pt hpt
    rcases List.mem_append.mp hpt with hm | hm
    · have := (h p hp).1 pt hm
      simp [this]
    · rcases List.mem_flatten.mp hm with ⟨r, hr, hptr⟩
      have := (h p hp).2 r hr pt hptr
      simp [this]
  have hmapz : ∀ l : MultiPolygon,
      MultiPolygon.has_z
        (l.map (fun p => ⟨p.exterior.map (fun pt => pt.take 2), []⟩)) = false := by
    intro l
    simp only [MultiPolygon.has_z, List.any_eq_false, List.mem_map]
    rintro q ⟨p, hp, hpq⟩
    subst hpq
    simp only [List.flatten_nil, List.append_nil, List.any_eq_true, not_exists, not_and,
      List.mem_map]
    rintro pt ⟨pt0, hpt0, hpt⟩
    subst hpt
    have hlen : (pt0.take 2).length ≤ 2 := by
      simp [List.length_take]
    simp only [ge_iff_le, decide_eq_true_eq, not_le]
    omega
  refine ⟨fun m => rfl, fun p => rfl, ?_, ?_, ?_⟩
  · intro mp h
    unfold flatten_geometry
    rw [h2d mp h]
    simp
  · intro mp hz
    have hflat : flatten_geometry mp =
        mp.map (fun p => ⟨p.exterior.map (fun pt => pt.take 2), []⟩) := by
      unfold flatten_geometry
      rw [hz]
      simp
    rw [hflat]
    refine ⟨by simp [List.map_map], ?_⟩
    intro q hq
    rw [List.mem_map] at hq
    obtain ⟨p, hp, hpq⟩ := hq
    rw [← hpq]
  · intro mp
    rcases hz : MultiPolygon.has_z mp with _ | _
    · have hid : flatten_geometry mp = mp := by
        unfold flatten_geometry
        rw [hz]
        simp
      rw [hid]
      exact hid
    · have hflat : flatten_geometry mp =
          mp.map (fun p => ⟨p.exterior.map (fun pt => pt.take 2), []⟩) := by
        unfold flatten_geometry
        rw [hz]
        simp
      rw [hflat]
      unfold flatten_geometry
      rw [hmapz mp]
      simp

/-- Witness for `geometry_normalization_spec`: the 2D unit square is returned
unchanged, and the 3D sample's flattening keeps only its Z-dropped exterior
ring. -/
theorem geometry_normalization_spec_witness :
    flatten_geometry [⟨[[0, 0], [1, 0], [1, 1], [0, 0]], []⟩] =
      [⟨[[0, 0], [1, 0], [1, 1], [0, 0]], []⟩] ∧
    ((flatten_geometry sample_3d_with_hole).map Polygon.exterior =
      [[[0, 0], [4, 0], [4, 4], [0, 4], [0, 0]]] ∧
     ∀ q ∈ flatten_geometry sample_3d_with_hole, q.interiors = []) := by
  constructor
  · exact geometry_normalization_spec.2.2.1 _ (by decide)
  · have := geometry_normalization_spec.2.2.2.1 sample_3d_with_hole (by decide)
    constructor
    · rw [this.1]
      decide
    · exact this.2

/-! ## Derived columns: per-series `pct_change` and `diff`

The legacy `Query.assemble_dataframe` sorts the long-format table by
`['variable', 'NAME', 'year']` and then computes
`dataframe.groupby(['GEO_ID', 'variable'])['value'].pct_change()` and
`...['value'].diff()`.  Within one `(GEO_ID, variable)` group the value column
is therefore a series in ascending year order; the two pandas operations on
one such series are embedded below.  `pct_change`'s default
`fill_method='pad'` forward-fills the series (within the group) before
computing `filled / filled.shift(1) - 1`; `diff` has no fill and subtracts
the immediately preceding element, `NaN`s propagating. -/

/-- pandas forward-fill (`pad`) with carried previous value `prev`. -/
def ffill_from (prev : Option ℚ) : List (Option ℚ) → List (Option ℚ)
  | [] => []
  | x :: xs =>
    match x with
    | some v => some v :: ffill_from (some v) xs
    | none => prev :: ffill_from prev xs

/-- One element of `series / series.shift(1) - 1`, `NaN`s propagating. -/
def pct_step (prev x : Option ℚ) : Option ℚ :=
  match prev, x with
  | some a, some b => some (b / a - 1)
  | _, _ => none

/-- One element of `series - series.shift(1)`, `NaN`s propagating. -/
def diff_step (prev x : Option ℚ) : Option ℚ :=
  match prev, x with
  | some a, some b => some (b - a)
  | _, _ => none

/-- Combine each element with its predecessor (the group-wise `shift(1)`
pattern shared by `pct_change` and `diff`); `prev` is the carried
predecessor, `none` at the start of a group. -/
def adjacent_transform (step : Option ℚ → Option ℚ → Option ℚ) (prev : Option ℚ) :
    List (Option ℚ) → List (Option ℚ)
  | [] => []
  | x :: xs => step prev x :: adjacent_transform step x xs

/-- `groupby(['GEO_ID', 'variable'])['value'].pct_change()` on one group's
series: pad-fill, then compare each filled element with its predecessor. -/
def pct_change (s : List (Option ℚ)) : List (Option ℚ) :=
  adjacent_transform pct_step none (ffill_from none s)

/-- `groupby(['GEO_ID', 'variable'])['value'].diff()` on one group's series:
plain adjacent difference, no fill. -/
def diff_series (s : List (Option ℚ)) : List (Option ℚ) :=
  adjacent_transform diff_step none s

/-- The difference described by the claim, for comparison: each row minus the
most recent *prior non-null* value, skipping null rows.  Modelled from the
spec's words, not from the code. -/
def diff_skipping_nulls_aux (prev_valid : Option ℚ) : List (Option ℚ) → List (Option ℚ)
  | [] => []
  | x :: xs =>
    diff_step prev_valid x ::
      diff_skipping_nulls_aux (match x with | some v => some v | none => prev_valid) xs

def diff_skipping_nulls (s : List (Option ℚ)) : List (Option ℚ) :=
  diff_skipping_nulls_aux none s

/-- Most recent non-null value of a series, seeded with `prev`. -/
def last_valid_from (prev : Option ℚ) (l : List (Option ℚ)) : Option ℚ :=
  l.foldl (fun acc x => match x with | some v => some v | none => acc) prev

/-- Most recent non-null value of a series. -/
def last_valid (l : List (Option ℚ)) : Option ℚ :=
  last_valid_from none l

theorem adjacent_transform_getElem (step : Option ℚ → Option ℚ → Option ℚ) :
    ∀ (l : List (Option ℚ)) (p : Option ℚ) (i : Nat) (x y : Option ℚ),
      l[i]? = some x → l[i + 1]? = some y →
      (adjacent_transform step p l)[i + 1]? = some (step x y) := by
  intro l
  induction l with
  | nil =>
    intro p i x y h1 _
    simp at h1
  | cons c cs ih =>
    intro p i x y h1 h2
    cases i with
    | zero =>
      simp only [List.getElem?_cons_zero, Option.some.injEq] at h1
      subst h1
      simp only [List.getElem?_cons_succ] at h2
      cases cs with
      | nil => simp at h2
      | cons d ds =>
        simp only [List.getElem?_cons_zero, Option.some.injEq] at h2
        subst h2
        simp [adjacent_transform]
    | succ j =>
      simp only [List.getElem?_cons_succ] at h1 h2
      have := ih c j x y h1 h2
      simpa [adjacent_transform] using this

theorem ffill_from_length (p : Option ℚ) (l : List (Option ℚ)) :
    (ffill_from p l).length = l.length := by
  induction l generalizing p with
  | nil => rfl
  | cons c cs ih =>
    cases c <;> simp [ffill_from, ih]

theorem ffill_from_getElem :
    ∀ (l : List (Option ℚ)) (p : Option ℚ) (i : Nat), i < l.length →
      (ffill_from p l)[i]? = some (last_valid_from p (l.take (i + 1))) := by
  intro l
  induction l with
  | nil =>
    intro p i h
    simp at h
  | cons c cs ih =>
    intro p i h
    cases c with
    | some v =>
      cases i with
      | zero => simp [ffill_from, last_valid_from]
      | succ j =>
        have hj : j < cs.length := by simpa using h
        simp only [ffill_from, List.getElem?_cons_succ, List.take_succ_cons]
        rw [ih (some v) j hj]
        simp [last_valid_from]
    | none =>
      cases i with
      | zero => simp [ffill_from, last_valid_from]
      | succ j =>
        have hj : j < cs.length := by simpa using h
        simp only [ffill_from, List.getElem?_cons_succ, List.take_succ_cons]
        rw [ih p j hj]
        simp [last_valid_from]

theorem last_valid_from_take (l : List (Option ℚ)) (p : Option ℚ) (i : Nat) (b : ℚ)
    (h : l[i]? = some (some b)) :
    last_valid_from p (l.take (i + 1)) = some b := by
  rw [List.take_succ, h]
  simp [last_valid_from, List.foldl_append]

theorem pct_change_first (s : List (Option ℚ)) (h : s ≠ []) :
    (pct_change s)[0]? = some none := by
  match s with
  | [] => exact absurd rfl h
  | x :: xs =>
    cases x <;> simp [pct_change, ffill_from, adjacent_transform, pct_step]

theorem pct_change_skips_nulls (s : List (Option ℚ)) (i : Nat) (a b : ℚ)
    (_ha : a ≠ 0) (hlast : last_valid (s.take i) = some a)
    (hget : s[i]? = some (some b)) :
    (pct_change s)[i]? = some (some (b / a - 1)) := by
  have hi : i < s.length := by
    by_contra hcon
    rw [List.getElem?_eq_none (by omega)] at hget
    exact Option.noConfusion hget
  have hipos : 0 < i := by
    by_contra h0
    have : i = 0 := by omega
    subst this
    simp [last_valid, last_valid_from] at hlast
  obtain ⟨j, rfl⟩ : ∃ j, i = j + 1 := ⟨i - 1, by omega⟩
  have hfj : (ffill_from none s)[j]? = some (some a) := by
    rw [ffill_from_getElem s none j (by omega)]
    exact congrArg some hlast
  have hfi : (ffill_from none s)[j + 1]? = some (some b) := by
    rw [ffill_from_getElem s none (j + 1) hi,
      last_valid_from_take s none (j + 1) b hget]
  have := adjacent_transform_getElem pct_step (ffill_from none s) none j
    (some a) (some b) hfj hfi
  rw [pct_change, this]
  rfl

theorem diff_series_adjacent (s : List (Option ℚ)) (i : Nat) (a b : ℚ)
    (h1 : s[i]? = some (some a)) (h2 : s[i + 1]? = some (some b)) :
    (diff_series s)[i + 1]? = some (some (b - a)) := by
  have := adjacent_transform_getElem diff_step s none i (some a) (some b) h1 h2
  rw [diff_series, this]
  rfl

theorem diff_series_null_prev (s : List (Option ℚ)) (i : Nat)
    (h1 : s[i]? = some none) (h2 : i + 1 < s.length) :
    (diff_series s)[i + 1]? = some none := by
  obtain ⟨y, hy⟩ : ∃ y, s[i + 1]? = some y := by
    rw [List.getElem?_eq_getElem h2]
    exact ⟨_, rfl⟩
  have := adjacent_transform_getElem diff_step s none i none y h1 hy
  rw [diff_series, this]
  cases y <;> rfl

/-- **C2 counterexample.** For the series `[100, NaN, 110]` (a valid year, an
annotated/missing year, a valid year), the code's `diff` yields `NaN` for the
third row — `110 - NaN` — instead of the claimed `110 - 100 = 10` against the
most recent prior non-null value: the difference column does *not* skip null
intermediate years. -/
theorem diff_series_gap :
    diff_series [some 100, none, some 110] = [none, none, none] ∧
    diff_skipping_nulls [some 100, none, some 110] = [none, none, some 10] := by
  constructor
  · rfl
  · simp only [diff_skipping_nulls, diff_skipping_nulls_aux, diff_step]
    norm_num

/-- **C2 (amended).** On each `(GEO_ID, variable)` series in year order:
the first row's percent-change is null; percent-change *does* skip null
intermediate rows (pandas pad-fill) — a non-null row whose most recent prior
non-null value is `a ≠ 0` gets `b / a - 1`; the difference column is the
plain adjacent difference — `b - a` only when the immediately preceding row
is non-null, and null whenever the preceding row is null, so a null
intermediate year nulls the next valid year's difference. -/
theorem derived_columns_spec :
    (∀ s : List (Option ℚ), s ≠ [] → (pct_change s)[0]? = some none) ∧
    (∀ (s : List (Option ℚ)) (i : Nat) (a b : ℚ), a ≠ 0 →
      last_valid (s.take i) = some a → s[i]? = some (some b) →
      (pct_change s)[i]? = some (some (b / a - 1))) ∧
    (∀ (s : List (Option ℚ)) (i : Nat) (a b : ℚ),
      s[i]? = some (some a) → s[i + 1]? = some (some b) →
      (diff_series s)[i + 1]? = some (some (b - a))) ∧
    (∀ (s : List (Option ℚ)) (i : Nat),
      s[i]? = some none → i + 1 < s.length →
      (diff_series s)[i + 1]? = some none) :=
  ⟨pct_change_first, pct_change_skips_nulls, diff_series_adjacent, diff_series_null_prev⟩

/-- Witness for `derived_columns_spec`, on the gap series `[100, NaN, 110]`
and the dense series `[4, 7]`: first percent-change null; the third row's
percent-change is `110/100 - 1` computed across the null year; the dense
difference is `7 - 4`; the gap difference is null. -/
theorem derived_columns_spec_witness :
    (pct_change [some 100, none, some 110])[0]? = some none ∧
    (pct_change [some 100, none, some 110])[2]? = some (some (110 / 100 - 1)) ∧
    (diff_series [some 4, some 7])[1]? = some (some (7 - 4)) ∧
    (diff_series [some 100, none, some 110])[2]? = some none :=
  ⟨derived_columns_spec.1 [some 100, none, some 110] (by decide),
   derived_columns_spec.2.1 [some 100, none, some 110] 2 100 110 (by decide)
     (by rfl) (by rfl),
   derived_columns_spec.2.2.1 [some 4, some 7] 0 4 7 (by rfl) (by rfl),
   derived_columns_spec.2.2.2 [some 100, none, some 110] 1 (by rfl) (by decide)⟩

/-! ## `Query.join_annotations` and the finalization nulling

`Query.join_annotations` (legacy pipeline) left-merges the data on the raw
`value` column against the bundled `annotations.csv` (sentinel value →
annotation text) and then executes
`dataframe.loc[dataframe['annotation'].notnull(), 'value'] = numpy.nan`;
`Query.finalize_dataframe` of `query.py` does the same with
`... = ''` followed by `pd.to_numeric(..., errors='coerce')`.  Either way a
row whose value matched a sentinel ends with a null value.  The sentinel
table is a parameter, so the theorems hold for any `annotations.csv`
contents. -/

/-- The left-merge lookup of one row's raw value in the sentinel table. -/
def annotation_for (annotations : List (ℚ × String)) (value : Option ℚ) : Option String :=
  match value with
  | some v => annotations.lookup v
  | none => none

/-- Merge the annotation text onto each row, then null the value of every
row whose annotation is non-null. -/
def join_annotations (annotations : List (ℚ × String)) (values : List (Option ℚ)) :
    List (Option ℚ × Option String) :=
  values.map (fun v =>
    let ann := annotation_for annotations v
    if ann.isSome then (none, ann) else (v, ann))

/-- **C6.** In every row of the finalized output, a non-null annotation
column forces a null value column, and consequently every surviving numeric
value is not an annotation sentinel: no sentinel (e.g. `-999999999`) ever
appears as numeric output. -/
theorem join_annotations_nulls_sentinels
    (annotations : List (ℚ × String)) (values : List (Option ℚ))
    (row : Option ℚ × Option String)
    (hrow : row ∈ join_annotations annotations values) :
    (row.2.isSome → row.1 = none) ∧
    (∀ w : ℚ, row.1 = some w → annotations.lookup w = none) := by
  obtain ⟨v, hv, hmap⟩ := List.mem_map.mp hrow
  by_cases hann : (annotation_for annotations v).isSome
  · rw [if_pos hann] at hmap
    subst hmap
    exact ⟨fun _ => rfl, fun w hw => Option.noConfusion hw⟩
  · rw [if_neg hann] at hmap
    subst hmap
    rw [Option.not_isSome_iff_eq_none] at hann
    refine ⟨fun hcon => ?_, fun w hw => ?_⟩
    · simp [hann] at hcon
    · have hv2 : v = some w := hw
      have hnone : annotation_for annotations v = none := hann
      rw [hv2] at hnone
      simpa [annotation_for] using hnone

/-- The annotation row for "no data available" with its sentinel. -/
def sample_sentinels : List (ℚ × String) :=
  [(-999999999, "Data not available")]

/-- Witness for `join_annotations_nulls_sentinels`: a series holding the raw
sentinel `-999999999` and the honest value 42 yields a first row with null
value and the annotation text — and that row's value is indeed no
sentinel. -/
theorem join_annotations_nulls_sentinels_witness :
    ((none, some "Data not available") : Option ℚ × Option String) ∈
      join_annotations sample_sentinels [some (-999999999), some 42] ∧
    ((((none, some "Data not available") : Option ℚ × Option String).2.isSome →
      ((none, some "Data not available") : Option ℚ × Option String).1 = none) ∧
     (∀ w : ℚ, ((none, some "Data not available") : Option ℚ × Option String).1 = some w →
       sample_sentinels.lookup w = none)) :=
  ⟨by decide,
   join_annotations_nulls_sentinels sample_sentinels [some (-999999999), some 42]
     (none, some "Data not available") (by decide)⟩

/-! ## `Query.__init__` and `Query.get_variables_by_year_and_table_name`

The `Except`-explicit transliteration below propagates each step's exception
exactly as the Python constructor raises it, in source order: estimate
validation, `Geo` construction for `for_geo` and `in_geo`, geometry and
resolution validation, API-key lookup, then `_validate_query_parameters`
(years, geography hierarchy, estimate/geography compatibility).
`current_year` models `datetime.today().year` and `env_key` the
`CENSUS_API_KEY` environment variable. -/

def ESTIMATES : List Nat := [1, 3, 5]

def GEOMETRIES : List String := ["points", "polygons"]

def RESOLUTIONS : List String := ["500k", "5m", "20m"]

/-- `utilities.check_years`: a year below 2009 or at/after the current year
raises `InvalidYearError`; Python's `min`/`max` of an empty sequence raise
`ValueError`. -/
def check_years (current_year : Nat) (years : List Nat) : Except PyError Bool :=
  match years.min?, years.max? with
  | some lo, some hi =>
    if lo < 2009 then .error .invalidYear
    else if current_year ≤ hi then .error .invalidYear
    else .ok true
  | _, _ => .error .valueError

/-- `utilities.check_geo_estimates`: a 1- or 3-year estimate together with a
tract `for_geo` raises a plain `ValueError`. -/
def check_geo_estimates (estimate : Nat) (for_geo : List Geo) : Except PyError Bool :=
  if (estimate = 1 || estimate = 3) && (for_geo.map Geo.type).contains "tract" then
    .error .valueError
  else .ok true

/-- `api.look_up_census_api_key`: the readme placeholder raises
`MissingCredentialsError`; an explicit key is returned as-is; otherwise the
environment is consulted, an absent variable raising
`MissingCredentialsError`. -/
def look_up_census_api_key (census_api_key : Option String) (env_key : Option String) :
    Except PyError String :=
  if census_api_key = some "Your Census API key" then .error .missingCredentials
  else
    match census_api_key with
    | some key => .ok key
    | none =>
      match env_key with
      | some key => .ok key
      | none => .error .missingCredentials

structure Query where
  estimate : Nat
  years : List Nat
  -- the source's `variables` attribute; `variables` is a reserved word here
  vars : List String
  for_geo : List Geo
  in_geo : List Geo
  geometry : Option String
  resolution : Option String
  census_api_key : String
deriving DecidableEq, Repr

/-- `Query.__init__` of `query.py`.  Nothing in construction parses variable
codes: the variables are stored untouched. -/
def Query.init (current_year : Nat) (env_key : Option String) (estimate : Nat)
    (years : List Nat) (vs : List String) (for_geo : List String)
    (in_geo : List String) (geometry : Option String) (resolution : Option String)
    (census_api_key : Option String) : Except PyError Query :=
  if !(ESTIMATES.contains estimate) then .error .valueError
  else match for_geo.mapM (fun value => Geo.make value none) with
  | .error e => .error e
  | .ok fg =>
    match in_geo.mapM (fun value => Geo.make value none) with
    | .error e => .error e
    | .ok ig =>
      if (match geometry with | some g => !(GEOMETRIES.contains g) | none => false) then
        .error .valueError
      else if (match resolution with | some r => !(RESOLUTIONS.contains r) | none => false) then
        .error .valueError
      else match look_up_census_api_key census_api_key env_key with
      | .error e => .error e
      | .ok key =>
        match check_years current_year years with
        | .error e => .error e
        | .ok _ =>
          match check_geo_combinations fg ig with
          | .error e => .error e
          | .ok _ =>
            match check_geo_estimates estimate fg with
            | .error e => .error e
            | .ok _ => .ok ⟨estimate, years, vs, fg, ig, geometry, resolution, key⟩

/-- Sorted insertion, for Python's `sorted`. -/
def insert_sorted_nat (x : Nat) : List Nat → List Nat
  | [] => [x]
  | y :: ys => if x ≤ y then x :: y :: ys else y :: insert_sorted_nat x ys

/-- Sorted insertion, for Python's `sorted`. -/
def insert_sorted_str (x : String) : List String → List String
  | [] => [x]
  | y :: ys => if x ≤ y then x :: y :: ys else y :: insert_sorted_str x ys

/-- The `Query.years` property: `sorted(set(self._years))`. -/
def Query.sorted_years (q : Query) : List Nat :=
  q.years.dedup.foldr insert_sorted_nat []

/-- The `Query.variables` property: `sorted(set(self._variables))`. -/
def Query.sorted_variables (q : Query) : List String :=
  q.vars.dedup.foldr insert_sorted_str []

/-- `defaultdict(list)`-style grouping: append `v` under `key`, keeping
first-insertion key order. -/
def insert_grouped (acc : List ((Nat × String) × List String)) (key : Nat × String)
    (v : String) : List ((Nat × String) × List String) :=
  match acc with
  | [] => [(key, [v])]
  | (k, group) :: rest =>
    if k = key then (k, group ++ [v]) :: rest
    else (k, group) :: insert_grouped rest key v

/-- `Query.get_variables_by_year_and_table_name` for a freshly constructed
query (whose `_invalid_variables` accumulator is still empty, so its `in`
check never skips): iterate `product(self.years, self.variables)`, parse
each variable's table name — this is where `InvalidVariableError` escapes —
and group the variables under `(year, table_name)`. -/
def Query.get_variables_by_year_and_table_name (q : Query) :
    Except PyError (List ((Nat × String) × List String)) :=
  (q.sorted_years.flatMap (fun y => q.sorted_variables.map (fun v => (y, v)))).foldlM
    (fun acc yv =>
      match parse_table_name_from_variable yv.2 with
      | .error e => .error e
      | .ok table_name => .ok (insert_grouped acc (yv.1, table_name) yv.2))
    []

theorem geo_make_error_value (value : String) (code : Option String) (e : PyError)
    (h : Geo.make value code = .error e) : e ≠ .invalidVariable := by
  unfold Geo.make at h
  split at h
  · exact Except.noConfusion h
  · split at h
    · split at h
      · exact Except.noConfusion h
      · injection h with h2
        subst h2
        decide
    · exact Except.noConfusion h

theorem mapM_geo_error_value (l : List String) (e : PyError)
    (h : l.mapM (fun value => Geo.make value none) = .error e) : e ≠ .invalidVariable := by
  induction l with
  | nil =>
    rw [List.mapM_nil] at h
    exact Except.noConfusion h
  | cons x xs ih =>
    rw [List.mapM_cons] at h
    cases hg : Geo.make x none with
    | error e' =>
      rw [hg] at h
      have h2 : e' = e := by
        simpa [Bind.bind, Except.bind] using h
      subst h2
      exact geo_make_error_value x none e' hg
    | ok g =>
      rw [hg] at h
      simp only [Bind.bind, Except.bind] at h
      cases hx : xs.mapM (fun value => Geo.make value none) with
      | error e'' =>
        rw [hx] at h
        have h2 : e'' = e := by
          simpa using h
        subst h2
        exact ih hx
      | ok gs =>
        rw [hx] at h
        simp [pure, Except.pure] at h

theorem look_up_error_value (k ek : Option String) (e : PyError)
    (h : look_up_census_api_key k ek = .error e) : e ≠ .invalidVariable := by
  unfold look_up_census_api_key at h
  split at h
  · injection h with h2
    subst h2
    decide
  · split at h
    · exact Except.noConfusion h
    · split at h
      · exact Except.noConfusion h
      · injection h with h2
        subst h2
        decide

theorem check_years_error_value (cy : Nat) (ys : List Nat) (e : PyError)
    (h : check_years cy ys = .error e) : e ≠ .invalidVariable := by
  unfold check_years at h
  split at h
  · split at h
    · injection h with h2
      subst h2
      decide
    · split at h
      · injection h with h2
        subst h2
        decide
      · exact Except.noConfusion h
  · injection h with h2
    subst h2
    decide

theorem check_geo_combinations_error_value (fg ig : List Geo) (e : PyError)
    (h : check_geo_combinations fg ig = .error e) : e ≠ .invalidVariable := by
  simp only [check_geo_combinations] at h
  repeat' split at h
  all_goals
    first
    | exact Except.noConfusion h
    | (injection h with h2
       subst h2
       decide)

theorem check_geo_estimates_error_value (est : Nat) (fg : List Geo) (e : PyError)
    (h : check_geo_estimates est fg = .error e) : e ≠ .invalidVariable := by
  unfold check_geo_estimates at h
  split at h
  · injection h with h2
    subst h2
    decide
  · exact Except.noConfusion h

theorem query_init_never_invalid_variable (current_year : Nat) (env_key : Option String)
    (estimate : Nat) (years : List Nat) (vs for_geo in_geo : List String)
    (geometry resolution : Option String) (census_api_key : Option String) :
    Query.init current_year env_key estimate years vs for_geo in_geo geometry
      resolution census_api_key ≠ .error .invalidVariable := by
  intro hcon
  unfold Query.init at hcon
  repeat' split at hcon
  all_goals
    first
    | exact Except.noConfusion hcon
    | exact PyError.noConfusion (Except.error.inj hcon)
    | (rename_i e heq
       injection hcon with h2
       subst h2
       first
       | exact (mapM_geo_error_value _ _ heq) rfl
       | exact (look_up_error_value _ _ _ heq) rfl
       | exact (check_years_error_value _ _ _ heq) rfl
       | exact (check_geo_combinations_error_value _ _ _ heq) rfl
       | exact (check_geo_estimates_error_value _ _ _ heq) rfl)

theorem fold_parse_error :
    ∀ (pairs : List (Nat × String)) (acc : List ((Nat × String) × List String)),
      (∀ p ∈ pairs, parse_table_name_from_variable p.2 = .error .invalidVariable ∨
        ∃ t, parse_table_name_from_variable p.2 = .ok t) →
      (∃ p ∈ pairs, parse_table_name_from_variable p.2 = .error .invalidVariable) →
      pairs.foldlM
        (fun acc yv =>
          (match parse_table_name_from_variable yv.2 with
            | Except.error e => Except.error e
            | Except.ok table_name =>
              Except.ok (insert_grouped acc (yv.1, table_name) yv.2) :
            Except PyError (List ((Nat × String) × List String))))
        acc = .error .invalidVariable := by
  intro pairs
  induction pairs with
  | nil =>
    intro acc _ hex
    simp at hex
  | cons p ps ih =>
    intro acc hall hex
    rw [List.foldlM_cons]
    cases hp : parse_table_name_from_variable p.2 with
    | error e =>
      have he : e = .invalidVariable := by
        rcases hall p (by simp) with h | ⟨t, ht⟩
        · rw [hp] at h
          exact Except.error.inj h
        · rw [hp] at ht
          exact Except.noConfusion ht
      subst he
      simp only [hp]
      rfl
    | ok t =>
      simp only [hp]
      obtain ⟨p', hp', herr⟩ := hex
      rcases List.mem_cons.mp hp' with hpe | hpe
      · subst hpe
        rw [hp] at herr
        exact Except.noConfusion herr
      · have := ih (insert_grouped acc (p.1, t) p.2)
          (fun q hq => hall q (by simp [hq])) ⟨p', hpe, herr⟩
        simpa [Bind.bind, Except.bind] using this

/-- **C9 counterexample.** A query that is valid in every other respect but
whose single variable `"X1001_001E"` carries the unrecognized prefix `"X"`
is constructed *without* error — `Query.__init__` never parses variable
codes — and the `InvalidVariableError` only appears when
`get_variables_by_year_and_table_name` runs during the fetch phase. -/
theorem query_init_accepts_invalid_prefix :
    Query.init 2026 none 5 [2015] ["X1001_001E"] ["state:08"] [] none none (some "key") =
      .ok ⟨5, [2015], ["X1001_001E"], [⟨"state", "08"⟩], [], none, none, "key"⟩ ∧
    Query.get_variables_by_year_and_table_name
      ⟨5, [2015], ["X1001_001E"], [⟨"state", "08"⟩], [], none, none, "key"⟩ =
      .error .invalidVariable :=
  ⟨by rfl, by rfl⟩

/-- **C9 (amended).** `Query.__init__` can never raise
`InvalidVariableError` — no step of construction parses variable codes — and
the error instead surfaces synchronously from
`get_variables_by_year_and_table_name`, the grouping step of the fetch
phase, for any query with at least one year whose variables all either parse
or carry an unrecognized prefix, at least one of them unrecognized. -/
theorem query_invalid_variable_deferred :
    (∀ (current_year : Nat) (env_key : Option String) (estimate : Nat)
       (years : List Nat) (vs for_geo in_geo : List String)
       (geometry resolution : Option String) (census_api_key : Option String),
      Query.init current_year env_key estimate years vs for_geo in_geo geometry
        resolution census_api_key ≠ .error .invalidVariable) ∧
    (∀ q : Query, q.sorted_years ≠ [] →
      (∀ v ∈ q.sorted_variables,
        parse_table_name_from_variable v = .error .invalidVariable ∨
        ∃ t, parse_table_name_from_variable v = .ok t) →
      (∃ v ∈ q.sorted_variables,
        parse_table_name_from_variable v = .error .invalidVariable) →
      Query.get_variables_by_year_and_table_name q = .error .invalidVariable) := by
  refine ⟨query_init_never_invalid_variable, ?_⟩
  intro q hyears hall hex
  unfold Query.get_variables_by_year_and_table_name
  apply fold_parse_error
  · intro p hp
    rw [List.mem_flatMap] at hp
    obtain ⟨y, _, hpm⟩ := hp
    rw [List.mem_map] at hpm
    obtain ⟨v, hv, hpv⟩ := hpm
    subst hpv
    exact hall v hv
  · obtain ⟨v, hv, herr⟩ := hex
    match hy : q.sorted_years with
    | [] => exact absurd hy hyears
    | y :: ys =>
      refine ⟨(y, v), ?_, herr⟩
      rw [List.mem_flatMap]
      exact ⟨y, by simp, List.mem_map.mpr ⟨v, hv, rfl⟩⟩

/-- Witness for `query_invalid_variable_deferred`: the concrete query of the
counterexample satisfies the hypotheses and its grouping step fails with
`InvalidVariableError`. -/
theorem query_invalid_variable_deferred_witness :
    Query.init 2027 none 5 [2016] ["X2002_001E"] ["state:53"] [] none none (some "key") ≠
      .error .invalidVariable ∧
    Query.get_variables_by_year_and_table_name
      ⟨5, [2016], ["X2002_001E"], [⟨"state", "53"⟩], [], none, none, "key"⟩ =
      .error .invalidVariable :=
  ⟨query_invalid_variable_deferred.1 2027 none 5 [2016] ["X2002_001E"] ["state:53"] []
      none none (some "key"),
   query_invalid_variable_deferred.2
     ⟨5, [2016], ["X2002_001E"], [⟨"state", "53"⟩], [], none, none, "key"⟩
     (by decide)
     (by
       intro v hv
       rw [show Query.sorted_variables
           ⟨5, [2016], ["X2002_001E"], [⟨"state", "53"⟩], [], none, none, "key"⟩ =
           ["X2002_001E"] from rfl] at hv
       have hv2 : v = "X2002_001E" := by simpa using hv
       subst hv2
       exact Or.inl (by rfl))
     ⟨"X2002_001E", by decide, by rfl⟩⟩

end Autocensus
